import Mathlib

/-
Verification of the daily job-search pipeline (src/search_and_email.py):
query generation, SERP result extraction, keyword filtering and link
deduplication, report formatting, and the control flow of main.
Strings are modelled by Lean String, Python None / missing dict keys by
Option, and the two effectful boundaries (the search provider and the SMTP
send) by explicit parameters of the main-model.
-/

namespace DailyJobSearch

/-- listStartsWith hay needle is true when needle occurs at the head of hay
(the primitive under Python substring containment). -/
def listStartsWith : List Char → List Char → Bool
  | _, [] => true
  | [], _ :: _ => false
  | a :: as, b :: bs => a == b && listStartsWith as bs

/-- hasSubAux needle hay is true when needle occurs contiguously somewhere in hay. -/
def hasSubAux (needle : List Char) : List Char → Bool
  | [] => listStartsWith [] needle
  | c :: t => listStartsWith (c :: t) needle || hasSubAux needle t

/-- strContains hay needle models the Python expression needle in hay. -/
def strContains (hay needle : String) : Bool :=
  hasSubAux needle.data hay.data

/-- Module constant locations of search_and_email.py. -/
def locations : List String := ["Bangalore", "Bengaluru", "Hyderabad", "Pune"]

/-- Module constant roles of search_and_email.py. -/
def roles : List String :=
  ["DevOps Engineer", "Cloud Engineer", "DevOps", "Site Reliability Engineer", "SRE"]

/-- Module constant experience_keywords of search_and_email.py. -/
def experience_keywords : List String :=
  ["entry level", "0 years", "0-1", "0 to 1", "fresher", "0-1 years", "fresher",
   "graduate", "new grad"]

/-- Inner loop of build_queries: for one location, the two queries appended for
each role, in role order. -/
def rolePairs (loc : String) : List String → List String
  | [] => []
  | role :: rest =>
      (role ++ " startup entry level " ++ loc) ::
      (role ++ " entry level " ++ loc) :: rolePairs loc rest

/-- build_queries generalised over the two configuration lists: the outer loop
runs over the locations, the inner loop over the roles. -/
def buildQueriesWith : List String → List String → List String
  | [], _ => []
  | loc :: rest, rs => rolePairs loc rs ++ buildQueriesWith rest rs

/-- build_queries of search_and_email.py, at the module's fixed configuration. -/
def build_queries : List String := buildQueriesWith locations roles

/-- ResultRecord models the dicts produced by extract_links_from_serp:
link is always present and non-empty there; title and snippet may be None. -/
structure ResultRecord where
  link : String
  title : Option String
  snippet : Option String
deriving DecidableEq, Repr

/-- RawEntry models one element of the provider's organic_results list:
each of the three fields may be missing or None. -/
structure RawEntry where
  link : Option String
  title : Option String
  snippet : Option String
deriving DecidableEq, Repr

/-- SerpResult models the dict returned by search_serpapi; organic_results
is none when the key is absent. -/
structure SerpResult where
  organic_results : Option (List RawEntry)
deriving DecidableEq, Repr

/-- Loop body of extract_links_from_serp over the organic_results list:
an entry is kept only when its link is truthy (present and non-empty). -/
def extractEntries : List RawEntry → List ResultRecord
  | [] => []
  | r :: rest =>
    match r.link with
    | some l => if l = "" then extractEntries rest
                else ⟨l, r.title, r.snippet⟩ :: extractEntries rest
    | none => extractEntries rest

/-- extract_links_from_serp of search_and_email.py: reads organic_results
(defaulting to the empty list) and keeps the entries with a truthy link. -/
def extract_links_from_serp (result : SerpResult) : List ResultRecord :=
  extractEntries (result.organic_results.getD [])

/-- Python str.lower, character by character (all matched keywords are ASCII). -/
def lowerStr (s : String) : String := String.mk (s.data.map Char.toLower)

/-- Python sep.join(xs). -/
def joinSep (sep : String) : List String → String
  | [] => ""
  | [a] => a
  | a :: b :: t => a ++ sep ++ joinSep sep (b :: t)

/-- The text a record is matched against: the space-join of its truthy
title and snippet fields, lowercased — the Python expression
a space joining filter None over title and snippet, then lower. -/
def textOf (it : ResultRecord) : String :=
  lowerStr (joinSep " "
    (([it.title, it.snippet].filterMap id).filter (fun s => s != "")))

/-- The experience gate of filter_and_score: some experience keyword, or
the substring entry, or the substring fresher, occurs in the text. -/
def expCond (text : String) : Bool :=
  experience_keywords.any (fun k => strContains text k) ||
    strContains text "entry" || strContains text "fresher"

/-- The role gate of filter_and_score: some lowercased role occurs in the text. -/
def roleCond (text : String) : Bool :=
  roles.any (fun r => strContains text (lowerStr r))

/-- The location check of filter_and_score (computed, but both of its
branches take the same action in the source). -/
def locCond (text : String) : Bool :=
  locations.any (fun loc => strContains text (lowerStr loc))

/-- The keyword-filtering loop of filter_and_score, kept in the source's
shape: the location test is present with identical branches. -/
def filteredOf : List ResultRecord → List ResultRecord
  | [] => []
  | it :: rest =>
    if expCond (textOf it) then
      if roleCond (textOf it) then
        if locCond (textOf it) then
          it :: filteredOf rest
        else
          it :: filteredOf rest
      else filteredOf rest
    else filteredOf rest

/-- The dedupe loop of filter_and_score: seen is the set of links already
emitted, later records with a seen link are discarded. -/
def dedupeAux (seen : List String) : List ResultRecord → List ResultRecord
  | [] => []
  | f :: t =>
    if f.link ∈ seen then dedupeAux seen t
    else f :: dedupeAux (f.link :: seen) t

/-- filter_and_score of search_and_email.py: keyword filtering, then
first-seen deduplication by link. -/
def filter_and_score (items : List ResultRecord) : List ResultRecord :=
  dedupeAux [] (filteredOf items)

/-- Python x or d for an optional string x: d when x is None or empty. -/
def orDefault : Option String → String → String
  | some s, d => if s = "" then d else s
  | none, d => d

/-- The f-string appended for entry number i in build_email_body. -/
def entryBlock (i : Nat) (r : ResultRecord) : String :=
  toString i ++ ". " ++ orDefault r.title "No title" ++ "\n" ++
    orDefault r.snippet "" ++ "\n" ++ r.link ++ "\n"

/-- The enumerate loop of build_email_body, numbering entries from i. -/
def numberEntries : Nat → List ResultRecord → List String
  | _, [] => []
  | i, r :: t => entryBlock i r :: numberEntries (i + 1) t

/-- The 60-dash separator line of build_email_body. -/
def dashes60 : String := String.mk (List.replicate 60 '-')

/-- build_email_body of search_and_email.py, with the wall-clock timestamp
injected as the parameter now. -/
def build_email_body (now : String) (results : List ResultRecord) : String :=
  if results.isEmpty then
    "Subject: Daily Job Search — No new matching jobs found (" ++ now ++
      ")\n\nNo matching jobs were found in today's search."
  else
    joinSep "\n"
      (("Daily Job Search results (" ++ now ++ ")\n") :: dashes60 ::
        numberEntries 1 results)

/-- The environment-sourced configuration of search_and_email.py; none is an
unset variable, some an explicitly set (possibly empty) value. -/
structure Config where
  serpapiKey : Option String
  smtpUser : Option String
  smtpPass : Option String
  recipientEnv : Option String
deriving DecidableEq, Repr

/-- Python truthiness of an optional string: false for None and for the
empty string. -/
def truthy : Option String → Bool
  | none => false
  | some s => s != ""

/-- RECIPIENT of search_and_email.py: the environment value, with the
module's default address when unset. -/
def RECIPIENT (cfg : Config) : String :=
  cfg.recipientEnv.getD "pnarayankar876@gmail.com"

/-- Observable outcome of one run of main. exitError is none exactly when
the process exits normally; searchCalls counts provider network calls;
collected is the all_links accumulator after the query loop; the attempt
fields record the one send_email invocation, when reached. -/
structure MainResult where
  exitError : Option String
  searchCalls : Nat
  collected : List ResultRecord
  sendAttempted : Bool
  attemptSubject : Option String
  attemptBody : Option String
deriving DecidableEq, Repr

/-- What query number i contributes to all_links: its extracted records on
success, nothing when the provider call raises. -/
def queryContribution (search : Nat → Except Unit SerpResult) (i : Nat) :
    List ResultRecord :=
  match search i with
  | .ok res => extract_links_from_serp res
  | .error _ => []

/-- The query loop of main over query numbers: each successful query extends
all_links, each raising query is caught and skipped. -/
def gather (search : Nat → Except Unit SerpResult) : List Nat → List ResultRecord
  | [] => []
  | i :: t =>
    match search i with
    | .ok res => extract_links_from_serp res ++ gather search t
    | .error _ => gather search t

/-- main of search_and_email.py. The provider is modelled by search (per
query number, a response or a raised error) and the SMTP send by sendOk;
now is the injected wall-clock timestamp. SystemExit on a falsy
SERPAPI_KEY happens before any network call; the send_email call in the
source has no surrounding try, so a failed send raises out of main. -/
def runMain (cfg : Config) (search : Nat → Except Unit SerpResult)
    (now : String) (sendOk : Bool) : MainResult :=
  if !truthy cfg.serpapiKey then
    ⟨some "SERPAPI_KEY not configured", 0, [], false, none, none⟩
  else
    let queries := build_queries
    let all_links := gather search (List.range queries.length)
    let final := (filter_and_score all_links).take 25
    let body := build_email_body now final
    let subject := "Daily Job Search — " ++ toString final.length ++ " matches"
    if sendOk then
      ⟨none, queries.length, all_links, true, some subject, some body⟩
    else
      ⟨some "send failed", queries.length, all_links, true, some subject, some body⟩

/-- The text of a body up to its first newline (the header line of a report). -/
def firstLine (s : String) : String :=
  String.mk (s.data.takeWhile (fun c => c != '\n'))

/-- Modelled from the spec defect found in the report format: the entry tail of
the non-empty digest as the amended claim words it — for each record, a blank
line and then the numbered block, numbering from i. -/
def specEntriesFrom : Nat → List ResultRecord → String
  | _, [] => ""
  | i, r :: t => "\n" ++ entryBlock i r ++ specEntriesFrom (i + 1) t

/-- The non-empty digest as the amended claim words it: a header line with the
timestamp only (no count), a blank line, the 60-dash rule, then the numbered
entries. -/
def specNonEmptyBody (now : String) (rs : List ResultRecord) : String :=
  "Daily Job Search results (" ++ now ++ ")\n\n" ++ dashes60 ++
    specEntriesFrom 1 rs

/-- The query sequence the claim describes: role-major, location-minor
iteration with the same adjacent pair per combination. -/
def claimRoleMajorQueries : List String :=
  (roles.map (fun role =>
    (locations.map (fun loc =>
      [role ++ " startup entry level " ++ loc,
       role ++ " entry level " ++ loc])).flatten)).flatten

/-- First record of end-to-end scenario 1. -/
def scenarioA1 : ResultRecord :=
  ⟨"a", some "DevOps Engineer fresher Bangalore", some ""⟩

/-- Second record of end-to-end scenario 1 (same link as the first). -/
def scenarioA2 : ResultRecord := ⟨"a", some "duplicate", some ""⟩

/-- Third record of end-to-end scenario 1. -/
def scenarioB : ResultRecord :=
  ⟨"b", some "Senior DevOps Lead", some "10 years experience"⟩

/-- A record that fails the keyword gates (link a). -/
def demoBad : ResultRecord := ⟨"a", some "nothing here", none⟩

/-- A record that passes the keyword gates (link a). -/
def demoGood : ResultRecord := ⟨"a", some "DevOps fresher", none⟩

/-- Another gate-passing record with the same link a but different fields. -/
def demoGood2 : ResultRecord := ⟨"a", some "Cloud Engineer fresher", none⟩

/-- A record with a title and a snippet (no digits), for the formatter. -/
def rrA : ResultRecord := ⟨"https://a", some "Ta", some "Sa"⟩

/-- A record with no title and no snippet, for the formatter fallbacks. -/
def rrB : ResultRecord := ⟨"https://b", none, none⟩

/-- A configuration with every variable set. -/
def cfgFull : Config := ⟨some "k", some "u", some "p", none⟩

/-- A configuration whose mail credentials are unset. -/
def cfgNoMail : Config := ⟨some "k", none, none, none⟩

/-- A configuration whose search API key is unset. -/
def cfgNoKey : Config := ⟨none, some "u", some "p", none⟩

/-- A provider world in which every query succeeds with no organic results. -/
def searchEmptyOk : Nat → Except Unit SerpResult := fun _ => .ok ⟨some []⟩

/-- A provider world in which query number 1 raises and every other query
returns one matching record with a query-specific link. -/
def searchOneErr : Nat → Except Unit SerpResult := fun i =>
  if i = 1 then .error ()
  else .ok ⟨some [⟨some ("https://x" ++ toString i),
                  some "DevOps Engineer fresher Bangalore", none⟩]⟩

/-- Strings with equal character data are equal. -/
theorem strExt {a b : String} (h : a.data = b.data) : a = b := by
  cases a; cases b; exact congrArg String.mk h

/-- Appending strings appends their character data. -/
theorem strAppend_data (a b : String) : (a ++ b).data = a.data ++ b.data := rfl

/-- String append is associative. -/
theorem strAppend_assoc (a b c : String) : a ++ b ++ c = a ++ (b ++ c) := by
  apply strExt
  show (a.data ++ b.data) ++ c.data = a.data ++ (b.data ++ c.data)
  rw [List.append_assoc]

/-- The empty string is a right unit for append. -/
theorem strAppend_empty (s : String) : s ++ "" = s := by
  apply strExt
  show s.data ++ [] = s.data
  rw [List.append_nil]

/-- Unfolding joinSep on a list of two or more pieces. -/
theorem joinSep_cons_cons (sep a b : String) (t : List String) :
    joinSep sep (a :: b :: t) = a ++ sep ++ joinSep sep (b :: t) := rfl

/-- The keyword-filtering loop is the filter by the two gates: the location
check takes the same action in both branches, so it never affects inclusion. -/
theorem filteredOf_eq_filter (l : List ResultRecord) :
    filteredOf l =
      l.filter (fun it => expCond (textOf it) && roleCond (textOf it)) := by
  induction l with
  | nil => rfl
  | cons it rest ih =>
    by_cases he : expCond (textOf it) = true
    · by_cases hr : roleCond (textOf it) = true
      · by_cases hl : locCond (textOf it) = true
        · simp [filteredOf, List.filter_cons, he, hr, hl, ih]
        · simp [filteredOf, List.filter_cons, he, hr, hl, ih]
      · simp [filteredOf, List.filter_cons, he, hr, ih]
    · simp [filteredOf, List.filter_cons, he, ih]

/-- The dedupe loop only discards records: its output is a sublist of its input. -/
theorem dedupeAux_sublist :
    ∀ (l : List ResultRecord) (seen : List String),
      (dedupeAux seen l).Sublist l := by
  intro l
  induction l with
  | nil => intro seen; simp [dedupeAux]
  | cons f t ih =>
    intro seen
    simp only [dedupeAux]
    by_cases hf : f.link ∈ seen
    · rw [if_pos hf]; exact (ih seen).cons f
    · rw [if_neg hf]; exact (ih (f.link :: seen)).cons₂ f

/-- No record emitted by the dedupe loop has a link that was already seen. -/
theorem dedupeAux_link_not_seen {x : ResultRecord} :
    ∀ (l : List ResultRecord) (seen : List String),
      x ∈ dedupeAux seen l → x.link ∉ seen := by
  intro l
  induction l with
  | nil => intro seen h; simp [dedupeAux] at h
  | cons f t ih =>
    intro seen h
    simp only [dedupeAux] at h
    by_cases hf : f.link ∈ seen
    · rw [if_pos hf] at h; exact ih seen h
    · rw [if_neg hf] at h
      rcases List.mem_cons.mp h with rfl | h2
      · exact hf
      · have hx := ih (f.link :: seen) h2
        intro hseen
        exact hx (List.mem_cons_of_mem _ hseen)

/-- The links of the dedupe loop's output are pairwise distinct. -/
theorem dedupeAux_nodup :
    ∀ (l : List ResultRecord) (seen : List String),
      ((dedupeAux seen l).map ResultRecord.link).Nodup := by
  intro l
  induction l with
  | nil => intro seen; simp [dedupeAux]
  | cons f t ih =>
    intro seen
    simp only [dedupeAux]
    by_cases hf : f.link ∈ seen
    · rw [if_pos hf]; exact ih seen
    · rw [if_neg hf]
      simp only [List.map_cons]
      refine List.nodup_cons.mpr ⟨?_, ih (f.link :: seen)⟩
      intro hmem
      rcases List.mem_map.mp hmem with ⟨y, hy, hl⟩
      have hns := dedupeAux_link_not_seen t (f.link :: seen) hy
      rw [hl] at hns
      exact hns (List.mem_cons_self _ _)

/-- Every input link that was not already seen is represented in the output. -/
theorem dedupeAux_complete {x : ResultRecord} :
    ∀ (l : List ResultRecord) (seen : List String),
      x ∈ l → x.link ∉ seen →
      ∃ y, y ∈ dedupeAux seen l ∧ y.link = x.link := by
  intro l
  induction l with
  | nil => intro seen h; cases h
  | cons f t ih =>
    intro seen hx hns
    simp only [dedupeAux]
    by_cases hf : f.link ∈ seen
    · rw [if_pos hf]
      rcases List.mem_cons.mp hx with rfl | hx2
      · exact absurd hf hns
      · exact ih seen hx2 hns
    · rw [if_neg hf]
      rcases List.mem_cons.mp hx with rfl | hx2
      · exact ⟨x, List.mem_cons_self _ _, rfl⟩
      · by_cases hlink : x.link = f.link
        · exact ⟨f, List.mem_cons_self _ _, hlink.symm⟩
        · have hns2 : x.link ∉ f.link :: seen := by
            intro hmem
            rcases List.mem_cons.mp hmem with h1 | h2
            · exact hlink h1
            · exact hns h2
          rcases ih (f.link :: seen) hx2 hns2 with ⟨y, hy, hyl⟩
          exact ⟨y, List.mem_cons_of_mem _ hy, hyl⟩

/-- Each record retained by the dedupe loop is the first input record carrying
its link. -/
theorem dedupeAux_first {x : ResultRecord} :
    ∀ (l : List ResultRecord) (seen : List String),
      x ∈ dedupeAux seen l →
      l.find? (fun z => z.link == x.link) = some x := by
  intro l
  induction l with
  | nil => intro seen h; simp [dedupeAux] at h
  | cons f t ih =>
    intro seen h
    simp only [dedupeAux] at h
    by_cases hf : f.link ∈ seen
    · rw [if_pos hf] at h
      have hxs := dedupeAux_link_not_seen t seen h
      have hb : (f.link == x.link) = false := by
        simp only [beq_eq_false_iff_ne, ne_eq]
        intro heq; rw [heq] at hf; exact hxs hf
      simp only [List.find?, hb]
      exact ih seen h
    · rw [if_neg hf] at h
      rcases List.mem_cons.mp h with rfl | h2
      · simp [List.find?]
      · have hxs := dedupeAux_link_not_seen t (f.link :: seen) h2
        have hb : (f.link == x.link) = false := by
          simp only [beq_eq_false_iff_ne, ne_eq]
          intro heq; exact hxs (heq ▸ List.mem_cons_self _ _)
        simp only [List.find?, hb]
        exact ih (f.link :: seen) h2

/-- On a list whose links are pairwise distinct and disjoint from seen, the
dedupe loop is the identity. -/
theorem dedupeAux_id :
    ∀ (l : List ResultRecord) (seen : List String),
      ((l.map ResultRecord.link).Nodup) → (∀ x ∈ l, x.link ∉ seen) →
      dedupeAux seen l = l := by
  intro l
  induction l with
  | nil => intro seen _ _; rfl
  | cons f t ih =>
    intro seen hnd hns
    have hf : f.link ∉ seen := hns f (List.mem_cons_self _ _)
    simp only [dedupeAux]
    rw [if_neg hf]
    congr 1
    rw [List.map_cons] at hnd
    have hnd2 := List.nodup_cons.mp hnd
    apply ih
    · exact hnd2.2
    · intro x hx hmem
      rcases List.mem_cons.mp hmem with h1 | h2
      · exact hnd2.1 (h1 ▸ List.mem_map_of_mem _ hx)
      · exact hns x (List.mem_cons_of_mem _ hx) h2

/-- The query loop's accumulator is the concatenation of the per-query
contributions, in query order. -/
theorem gather_eq_join (search : Nat → Except Unit SerpResult) :
    ∀ (l : List Nat),
      gather search l = (l.map (queryContribution search)).flatten := by
  intro l
  induction l with
  | nil => rfl
  | cons i t ih =>
    simp only [gather, List.map_cons, List.flatten, queryContribution]
    cases hs : search i with
    | ok res => simp [hs, ih]
    | error e => simp [hs, ih]

/-- joinSep over a block followed by numbered entries, as flat concatenation. -/
theorem joinSep_numberEntries :
    ∀ (rs : List ResultRecord) (i : Nat) (d : String),
      joinSep "\n" (d :: numberEntries i rs) = d ++ specEntriesFrom i rs := by
  intro rs
  induction rs with
  | nil =>
    intro i d
    show d = d ++ ""
    rw [strAppend_empty]
  | cons r t ih =>
    intro i d
    show joinSep "\n" (d :: entryBlock i r :: numberEntries (i + 1) t) =
      d ++ ("\n" ++ entryBlock i r ++ specEntriesFrom (i + 1) t)
    rw [joinSep_cons_cons, ih (i + 1) (entryBlock i r)]
    rw [strAppend_assoc d "\n" (entryBlock i r ++ specEntriesFrom (i + 1) t)]
    rw [← strAppend_assoc "\n" (entryBlock i r) (specEntriesFrom (i + 1) t)]

/-- Length of the per-location block of build_queries: two queries per role. -/
theorem rolePairs_length (loc : String) :
    ∀ rs : List String, (rolePairs loc rs).length = 2 * rs.length := by
  intro rs
  induction rs with
  | nil => rfl
  | cons r t ih =>
    simp only [rolePairs, List.length_cons, ih]
    omega

/-- The per-location block of build_queries as a flattened map over roles. -/
theorem rolePairs_eq (loc : String) :
    ∀ rs : List String,
      rolePairs loc rs =
        (rs.map (fun role =>
          [role ++ " startup entry level " ++ loc,
           role ++ " entry level " ++ loc])).flatten := by
  intro rs
  induction rs with
  | nil => rfl
  | cons r t ih => simp [rolePairs, ih]

/-- Records kept by the filtering stage satisfy both keyword gates. -/
theorem mem_filtered_gates {x : ResultRecord} {items : List ResultRecord}
    (h : x ∈ filteredOf items) :
    (expCond (textOf x) && roleCond (textOf x)) = true := by
  rw [filteredOf_eq_filter] at h
  exact (List.mem_filter.mp h).2

/-- Records emitted by extract_links_from_serp's loop have a non-empty link. -/
theorem mem_extractEntries_link_ne {rec : ResultRecord} :
    ∀ l : List RawEntry, rec ∈ extractEntries l → rec.link ≠ "" := by
  intro l
  induction l with
  | nil => intro h; cases h
  | cons r rest ih =>
    intro h
    cases hl : r.link with
    | none =>
      simp only [extractEntries, hl] at h
      exact ih h
    | some s =>
      simp only [extractEntries, hl] at h
      by_cases hs : s = ""
      · rw [if_pos hs] at h; exact ih h
      · rw [if_neg hs] at h
        rcases List.mem_cons.mp h with rfl | h2
        · exact hs
        · exact ih h2

/-- C1 (corrected): main has no handler around send_email, so a send failure
propagates out of main and the run exits abnormally; only a successful send
lets the run exit normally. -/
theorem C1_claim :
    ∀ (cfg : Config) (search : Nat → Except Unit SerpResult) (now : String),
      truthy cfg.serpapiKey = true →
      (runMain cfg search now false).exitError = some "send failed" ∧
      (runMain cfg search now true).exitError = none := by
  intro cfg search now h
  constructor <;> simp [runMain, h]

/-- C1 witness: the amended claim at a fully configured run. -/
theorem C1_witness :
    truthy cfgFull.serpapiKey = true ∧
    ((runMain cfgFull searchEmptyOk "2026-01-01 08:00 IST" false).exitError =
        some "send failed" ∧
     (runMain cfgFull searchEmptyOk "2026-01-01 08:00 IST" true).exitError =
        none) :=
  ⟨by decide, C1_claim cfgFull searchEmptyOk "2026-01-01 08:00 IST" (by decide)⟩

/-- C1 counterexample: a concrete run whose send fails does not exit
normally, contradicting the claim that a send failure never propagates. -/
theorem C1_counterexample :
    (runMain cfgFull searchEmptyOk "2026-01-01 08:00 IST" false).exitError ≠
      none := by decide

/-- C2 (corrected): on scenario 1's input the filter returns both the first
link-a record and the link-b record: the second record fails the keyword gate
(so it never reaches dedupe), and the link-b record is kept because the
experience keyword 0 years occurs inside 10 years experience and the role
keyword devops occurs in its text. -/
theorem C2_claim :
    filter_and_score [scenarioA1, scenarioA2, scenarioB] =
      [scenarioA1, scenarioB] ∧
    expCond (textOf scenarioA2) = false ∧
    strContains (textOf scenarioB) "0 years" = true ∧
    strContains (textOf scenarioB) "devops" = true := by decide

/-- C2 counterexample: the output on scenario 1's input is not the claimed
one-element list. -/
theorem C2_counterexample :
    filter_and_score [scenarioA1, scenarioA2, scenarioB] ≠ [scenarioA1] := by
  decide

/-- C3 (corrected): only the search API key is checked up front — a falsy key
aborts with the configuration error before any network call, while a run with
missing mail credentials still performs every search query and still reaches
the send step. -/
theorem C3_claim :
    ∀ (cfg : Config) (search : Nat → Except Unit SerpResult) (now : String)
      (sendOk : Bool),
      (truthy cfg.serpapiKey = false →
        runMain cfg search now sendOk =
          ⟨some "SERPAPI_KEY not configured", 0, [], false, none, none⟩) ∧
      (truthy cfg.serpapiKey = true →
        (runMain cfg search now sendOk).searchCalls = build_queries.length ∧
        (runMain cfg search now sendOk).sendAttempted = true) := by
  intro cfg search now sendOk
  constructor
  · intro h; simp [runMain, h]
  · intro h; cases sendOk <;> simp [runMain, h]

/-- C3 witness: the amended claim at a keyless and at a mail-less run. -/
theorem C3_witness :
    (truthy cfgNoKey.serpapiKey = false ∧
      runMain cfgNoKey searchEmptyOk "ts" true =
        ⟨some "SERPAPI_KEY not configured", 0, [], false, none, none⟩) ∧
    (truthy cfgNoMail.serpapiKey = true ∧
      ((runMain cfgNoMail searchEmptyOk "ts" true).searchCalls =
          build_queries.length ∧
       (runMain cfgNoMail searchEmptyOk "ts" true).sendAttempted = true)) :=
  ⟨⟨by decide, (C3_claim cfgNoKey searchEmptyOk "ts" true).1 (by decide)⟩,
   ⟨by decide, (C3_claim cfgNoMail searchEmptyOk "ts" true).2 (by decide)⟩⟩

/-- C3 counterexample: with both mail credentials unset the run still issues
all 40 provider calls and completes normally — it does not abort before
network activity as the claim requires for any missing required setting. -/
theorem C3_counterexample :
    cfgNoMail.smtpUser = none ∧ cfgNoMail.smtpPass = none ∧
    (runMain cfgNoMail searchEmptyOk "ts" true).searchCalls = 40 ∧
    (runMain cfgNoMail searchEmptyOk "ts" true).exitError = none := by decide

/-- C4 (corrected): build_queries is the location-major, role-minor sequence
of adjacent pairs (role startup entry level loc, role entry level loc), of
length 2·l·r. -/
theorem C4_claim :
    ∀ (locs rs : List String),
      buildQueriesWith locs rs =
        (locs.map (fun loc =>
          (rs.map (fun role =>
            [role ++ " startup entry level " ++ loc,
             role ++ " entry level " ++ loc])).flatten)).flatten ∧
      (buildQueriesWith locs rs).length = 2 * (locs.length * rs.length) ∧
      build_queries = buildQueriesWith locations roles := by
  intro locs rs
  refine ⟨?_, ?_, rfl⟩
  · induction locs with
    | nil => rfl
    | cons loc t ih => simp [buildQueriesWith, rolePairs_eq, ih]
  · induction locs with
    | nil => simp [buildQueriesWith]
    | cons loc t ih =>
      simp only [buildQueriesWith, List.length_append, rolePairs_length,
        List.length_cons, ih]
      ring

/-- C4 counterexample: the produced sequence differs from the role-major,
location-minor sequence the claim describes. -/
theorem C4_counterexample : build_queries ≠ claimRoleMajorQueries := by decide

/-- C5 (corrected): the filtering stage keeps a record iff its text passes the
experience gate and the role gate — the location check has no effect — and,
for inputs without duplicate links, membership in the full filter_and_score
output is equivalent to membership in the input plus the two gates. -/
theorem C5_claim :
    ∀ items : List ResultRecord,
      filteredOf items =
        items.filter (fun it => expCond (textOf it) && roleCond (textOf it)) ∧
      ((items.map ResultRecord.link).Nodup → ∀ it : ResultRecord,
        (it ∈ filter_and_score items ↔
          it ∈ items ∧ (expCond (textOf it) && roleCond (textOf it)) = true)) := by
  intro items
  refine ⟨filteredOf_eq_filter items, ?_⟩
  intro hnd it
  have hsub : (filteredOf items).Sublist items := by
    rw [filteredOf_eq_filter]
    exact List.filter_sublist items
  have hnd2 : ((filteredOf items).map ResultRecord.link).Nodup :=
    (hsub.map ResultRecord.link).nodup hnd
  have hid : filter_and_score items = filteredOf items :=
    dedupeAux_id (filteredOf items) [] hnd2 (by intro x _ h; cases h)
  rw [hid, filteredOf_eq_filter]
  exact List.mem_filter

/-- C5 witness: the amended claim at a one-record link-distinct input. -/
theorem C5_witness :
    (([scenarioA1] : List ResultRecord).map ResultRecord.link).Nodup ∧
    (scenarioA1 ∈ filter_and_score [scenarioA1] ↔
      scenarioA1 ∈ [scenarioA1] ∧
      (expCond (textOf scenarioA1) && roleCond (textOf scenarioA1)) = true) :=
  ⟨by decide, (C5_claim [scenarioA1]).2 (by decide) scenarioA1⟩

/-- C5 counterexample: a record that passes both gates yet is absent from the
output, because an earlier record carries the same link — so gate passing is
not equivalent to being kept by filter_and_score. -/
theorem C5_counterexample :
    (expCond (textOf demoGood2) && roleCond (textOf demoGood2)) = true ∧
    demoGood2 ∈ [demoGood, demoGood2] ∧
    demoGood2 ∉ filter_and_score [demoGood, demoGood2] := by decide

/-- C6 (corrected): the output links are pairwise distinct, output order is
first-seen order among the gate-passing records, each retained record is the
first gate-passing record with its link, and every gate-passing record's link
is represented. -/
theorem C6_claim :
    ∀ items : List ResultRecord,
      ((filter_and_score items).map ResultRecord.link).Nodup ∧
      (filter_and_score items).Sublist (filteredOf items) ∧
      (∀ x, x ∈ filter_and_score items →
        (filteredOf items).find? (fun z => z.link == x.link) = some x) ∧
      (∀ x, x ∈ filteredOf items →
        ∃ y, y ∈ filter_and_score items ∧ y.link = x.link) := by
  intro items
  refine ⟨dedupeAux_nodup (filteredOf items) [],
          dedupeAux_sublist (filteredOf items) [], ?_, ?_⟩
  · intro x hx
    exact dedupeAux_first (filteredOf items) [] hx
  · intro x hx
    exact dedupeAux_complete (filteredOf items) [] hx (by intro h; cases h)

/-- C6 witness: the amended claim at an input with two gate-passing records
sharing one link. -/
theorem C6_witness :
    ((filter_and_score [demoGood, demoGood2]).map ResultRecord.link).Nodup ∧
    (filteredOf [demoGood, demoGood2]).find?
      (fun z => z.link == demoGood.link) = some demoGood :=
  ⟨(C6_claim [demoGood, demoGood2]).1,
   (C6_claim [demoGood, demoGood2]).2.2.1 demoGood (by decide)⟩

/-- C6 counterexample: when the earliest input record with a link fails the
keyword gate, a later record with that link is the one retained — the
earliest-occurring input record is not retained as the claim states. -/
theorem C6_counterexample :
    filter_and_score [demoBad, demoGood] = [demoGood] ∧
    demoGood.title ≠ demoBad.title := by decide

/-- C7 (confirmed): filter_and_score is idempotent — running it on its own
output changes nothing. -/
theorem C7_claim :
    ∀ items : List ResultRecord,
      filter_and_score (filter_and_score items) = filter_and_score items := by
  intro items
  have hmem : ∀ x ∈ filter_and_score items,
      (expCond (textOf x) && roleCond (textOf x)) = true := by
    intro x hx
    exact mem_filtered_gates
      ((dedupeAux_sublist (filteredOf items) []).subset hx)
  have h1 : filteredOf (filter_and_score items) = filter_and_score items := by
    rw [filteredOf_eq_filter]
    exact List.filter_eq_self.mpr hmem
  show dedupeAux [] (filteredOf (filter_and_score items)) =
    filter_and_score items
  rw [h1]
  exact dedupeAux_id (filter_and_score items) []
    (dedupeAux_nodup (filteredOf items) [])
    (by intro x _ h; cases h)

/-- C8 (confirmed): with the API key set, the accumulated list is exactly the
concatenation of per-query contributions in query order (a raising query
contributes nothing), every query is issued, the loop always completes and
reaches the send step, and the exit status is unaffected by search errors. -/
theorem C8_claim :
    ∀ (cfg : Config) (search : Nat → Except Unit SerpResult) (now : String)
      (sendOk : Bool),
      truthy cfg.serpapiKey = true →
      (runMain cfg search now sendOk).collected =
        ((List.range build_queries.length).map
          (queryContribution search)).flatten ∧
      (runMain cfg search now sendOk).searchCalls = build_queries.length ∧
      (runMain cfg search now sendOk).sendAttempted = true ∧
      (runMain cfg search now sendOk).exitError =
        (if sendOk then none else some "send failed") := by
  intro cfg search now sendOk h
  cases sendOk <;> simp [runMain, h, gather_eq_join]

/-- C8 witness: the claim at a world where query number 1 raises and every
other query returns one record. -/
theorem C8_witness :
    truthy cfgFull.serpapiKey = true ∧
    ((runMain cfgFull searchOneErr "ts" true).collected =
        ((List.range build_queries.length).map
          (queryContribution searchOneErr)).flatten ∧
     (runMain cfgFull searchOneErr "ts" true).searchCalls =
        build_queries.length ∧
     (runMain cfgFull searchOneErr "ts" true).sendAttempted = true ∧
     (runMain cfgFull searchOneErr "ts" true).exitError =
        (if true then none else some "send failed")) :=
  ⟨by decide, C8_claim cfgFull searchOneErr "ts" true (by decide)⟩

/-- The non-empty digest equals the flat header-and-entries form. -/
theorem build_email_body_nonempty :
    ∀ (now : String) (r : ResultRecord) (t : List ResultRecord),
      build_email_body now (r :: t) = specNonEmptyBody now (r :: t) := by
  intro now r t
  show joinSep "\n"
      (("Daily Job Search results (" ++ now ++ ")\n") :: dashes60 ::
        numberEntries 1 (r :: t)) = specNonEmptyBody now (r :: t)
  rw [joinSep_cons_cons, joinSep_numberEntries]
  apply strExt
  have h1 : (")\n" : String).data = [')', '\n'] := rfl
  have h2 : ("\n" : String).data = ['\n'] := rfl
  have h3 : (")\n\n" : String).data = [')', '\n', '\n'] := rfl
  simp [specNonEmptyBody, strAppend_data, h1, h2, h3, List.append_assoc]

/-- C9 (corrected): the empty digest is the exact two-line no-matches message
carrying the timestamp; a non-empty digest is a header line with the
timestamp only (the count appears in the subject built by main), the dash
rule, and the numbered entries with their fallbacks; and on a zero-result run
send_email is still invoked with that body and the 0-count subject. -/
theorem C9_claim :
    ∀ (now : String) (rs : List ResultRecord) (cfg : Config) (sendOk : Bool),
      build_email_body now [] =
        "Subject: Daily Job Search — No new matching jobs found (" ++ now ++
          ")\n\nNo matching jobs were found in today's search." ∧
      (rs ≠ [] → build_email_body now rs = specNonEmptyBody now rs) ∧
      (truthy cfg.serpapiKey = true →
        (runMain cfg searchEmptyOk now sendOk).attemptBody =
          some (build_email_body now []) ∧
        (runMain cfg searchEmptyOk now sendOk).sendAttempted = true ∧
        (runMain cfg searchEmptyOk now sendOk).attemptSubject =
          some "Daily Job Search — 0 matches") := by
  intro now rs cfg sendOk
  refine ⟨rfl, ?_, ?_⟩
  · intro hne
    cases rs with
    | nil => exact absurd rfl hne
    | cons r t => exact build_email_body_nonempty now r t
  · intro h
    have hg : gather searchEmptyOk (List.range build_queries.length) = [] := by
      decide
    have hs : "Daily Job Search — " ++ toString (0 : Nat) ++ " matches" =
        "Daily Job Search — 0 matches" := by decide
    cases sendOk <;> simp [runMain, h, hg, filter_and_score, filteredOf,
      dedupeAux, hs]

/-- C9 witness: the amended claim at a one-record list and a zero-result run. -/
theorem C9_witness :
    (([rrA] : List ResultRecord) ≠ [] ∧
      build_email_body "2026-01-01 08:00 IST" [rrA] =
        specNonEmptyBody "2026-01-01 08:00 IST" [rrA]) ∧
    (truthy cfgFull.serpapiKey = true ∧
      ((runMain cfgFull searchEmptyOk "2026-01-01 08:00 IST" true).attemptBody =
          some (build_email_body "2026-01-01 08:00 IST" []) ∧
       (runMain cfgFull searchEmptyOk "2026-01-01 08:00 IST" true).sendAttempted =
          true ∧
       (runMain cfgFull searchEmptyOk "2026-01-01 08:00 IST" true).attemptSubject =
          some "Daily Job Search — 0 matches")) :=
  ⟨⟨by decide,
    (C9_claim "2026-01-01 08:00 IST" [rrA] cfgFull true).2.1 (by decide)⟩,
   ⟨by decide,
    (C9_claim "2026-01-01 08:00 IST" [rrA] cfgFull true).2.2 (by decide)⟩⟩

/-- C9 counterexample: the body's header line is identical for one and for two
records and contains no count figure — the non-empty body's header is not a
header with count as the claim states. -/
theorem C9_counterexample :
    firstLine (build_email_body "ts" [rrA, rrB]) =
      firstLine (build_email_body "ts" [rrA]) ∧
    firstLine (build_email_body "ts" [rrA, rrB]) =
      "Daily Job Search results (ts)" ∧
    strContains (firstLine (build_email_body "ts" [rrA, rrB])) "2" = false ∧
    ([rrA, rrB] : List ResultRecord).length = 2 := by decide

/-- C10 (confirmed): every record extracted from a provider response has a
non-empty link; entries whose link is missing, None or empty are discarded;
and title and snippet may still be None in a returned record. -/
theorem C10_claim :
    (∀ (res : SerpResult) (rec : ResultRecord),
      rec ∈ extract_links_from_serp res → rec.link ≠ "") ∧
    (∀ (e : RawEntry) (rest : List RawEntry),
      (e.link = none ∨ e.link = some "") →
      extractEntries (e :: rest) = extractEntries rest) ∧
    extract_links_from_serp ⟨some [⟨some "x", none, none⟩]⟩ =
      [⟨"x", none, none⟩] := by
  refine ⟨?_, ?_, rfl⟩
  · intro res rec h
    exact mem_extractEntries_link_ne _ h
  · intro e rest he
    rcases he with h | h <;> simp [extractEntries, h]

/-- C10 witness: the claim at a concrete response with one kept and one
discarded entry. -/
theorem C10_witness :
    ((⟨"x", none, none⟩ : ResultRecord).link ≠ "") ∧
    extractEntries [⟨none, some "t", some "s"⟩] = extractEntries [] :=
  ⟨C10_claim.1 ⟨some [⟨some "x", none, none⟩]⟩ ⟨"x", none, none⟩ (by decide),
   C10_claim.2.1 ⟨none, some "t", some "s"⟩ [] (Or.inl rfl)⟩

end DailyJobSearch
